import Mathlib

/-!
Verification development for the music-app personalized feed core.

This file gives a shallow embedding of the scoring/ranking pipeline of
`lambda_functions/calculate_feed/index.py`, the rating-store operation of
`lambda_functions/create_rating/index.py`, and the history lookup
`get_user_history`, together with theorems about their behavior.

Modelling conventions:
* Python dicts that are only read with a default value (`d.get(k, 0)`,
  `Counter`, `defaultdict`) are modelled as total functions with that default.
* Python numbers are modelled as `Int` (integers) and `ℚ` (the float
  arithmetic of the scorer: means, `*0.3`, `*20`, ... are exact small
  rationals here).
* ISO timestamps are modelled as integer seconds; `datetime.hour` becomes
  `(t % 86400) / 3600`, and `timedelta(days=30)` becomes `30 * 86400`.
* `dict.get(key)` on a possibly-missing key is an `Option` field.
* Fallible code returns `Except String`.
-/

namespace MusicApp

/-- An album as produced by `transform_album_for_response` (only the fields
the scorer reads: `albumId`, `artistId`, `genre`). -/
structure Album where
  albumId : String
  artistId : String
  genre : String
  deriving DecidableEq

/-- A subscription as produced by `transform_subscription_for_response`.
That transform emits exactly the keys `subscriptionId`, `username`,
`subscriptionType`, `targetId`, `targetName`, `timestamp`; it never emits an
`artistId` key.  The scorer nevertheless reads `sub.get('artistId')`, so the
field is modelled as an `Option` (`none` = key absent, which is what the
pipeline always passes). -/
structure Subscription where
  subscriptionType : String
  targetId : String
  targetName : String
  artistId : Option String
  deriving DecidableEq

/-- A rating as consumed by the scorer (`songId`, `stars`). -/
structure Rating where
  songId : String
  stars : Int
  deriving DecidableEq

/-- A music-content item as returned by `_get_all_content`; the scorer reads
`item.get("albumId")` and `item.get('contentId')`, both possibly absent. -/
structure ContentItem where
  albumId : Option String
  contentId : Option String
  deriving DecidableEq

/-- One listening-history entry: `{genre, artist, timestamp}` with the
timestamp in integer seconds. -/
structure HistoryEntry where
  genre : String
  artist : String
  timestamp : Int
  deriving DecidableEq

/-- Python `str.lower()` (ASCII-faithful): lower-case every character. -/
def pyLower (s : String) : String :=
  ⟨s.data.map Char.toLower⟩

/-- `d[k] = d.get(k, 0) + v` on an accumulator dict modelled as a total
function with default `0`. -/
def dictAdd (d : String → ℚ) (k : String) (v : ℚ) : String → ℚ :=
  fun k2 => if k2 = k then d k + v else d k2

/-- The body of the subscription loop of `get_feed_albums` (source lines
68-79): an ARTIST subscription adds `+50` to the accumulator at
`album['albumId']` for every album with
`album['artistId'] == sub.get('artistId')` (note: the code reads the
`artistId` key of the subscription, not `targetId`); a GENRE subscription
adds `+30` for every album with
`album['genre'].lower() == sub['targetName'].lower()`. -/
def subscription_boost_step (albums : List Album) (boost : String → ℚ)
    (sub : Subscription) : String → ℚ :=
  if sub.subscriptionType = "ARTIST" then
    albums.foldl
      (fun b album =>
        if some album.artistId = sub.artistId then dictAdd b album.albumId 50 else b)
      boost
  else if sub.subscriptionType = "GENRE" then
    albums.foldl
      (fun b album =>
        if pyLower album.genre = pyLower sub.targetName then dictAdd b album.albumId 30
        else b)
      boost
  else boost

/-- The subscription pass of `get_feed_albums`: fold `subscription_boost_step`
over all subscriptions, starting from the empty accumulator dict. -/
def subscription_boost (subscriptions : List Subscription) (albums : List Album) :
    String → ℚ :=
  subscriptions.foldl (subscription_boost_step albums) (fun _ => 0)

/-- `song_ratings = {rating['songId']: int(rating['stars']) for rating in ratings}`:
a dict comprehension, later entries overwrite earlier ones. -/
def song_ratings (ratings : List Rating) : String → Option Int :=
  ratings.foldl (fun m r => fun k => if k = r.songId then some r.stars else m k)
    (fun _ => none)

/-- The per-album list `album_song_ratings`: the user's ratings on this
album's tracks, found by filtering `content` on `item.get("albumId") ==
album['albumId']` and looking each `song.get('contentId')` up in
`song_ratings`. -/
def album_song_ratings (content : List ContentItem) (sr : String → Option Int)
    (album : Album) : List Int :=
  (content.filter (fun item => item.albumId = some album.albumId)).filterMap
    (fun song => song.contentId.bind sr)

/-- `sum(l) / len(l)` as an exact rational. -/
def listMean (l : List Int) : ℚ :=
  (l.sum : ℚ) / (l.length : ℚ)

/-- `genre_affinity`: for each album (in catalog order) every rating the user
gave to one of its tracks is appended to the list at the album's genre. -/
def genre_affinity (albums : List Album) (content : List ContentItem)
    (sr : String → Option Int) : String → List Int :=
  albums.foldl
    (fun m album => fun g =>
      if g = album.genre then m g ++ album_song_ratings content sr album else m g)
    (fun _ => [])

/-- `artist_affinity`: as `genre_affinity` but keyed by the album's `artistId`. -/
def artist_affinity (albums : List Album) (content : List ContentItem)
    (sr : String → Option Int) : String → List Int :=
  albums.foldl
    (fun m album => fun a =>
      if a = album.artistId then m a ++ album_song_ratings content sr album else m a)
    (fun _ => [])

/-- The `album_ratings` dict.  In the source the statement
`if album_song_ratings: album_ratings[album['albumId']] = ...` is indented at
the same level as `for album in albums:`, i.e. OUTSIDE the loop, so it runs
once after the loop with the loop variables left at the LAST album; only that
album can ever receive an entry.  (With an empty catalog the source raises
`NameError`; that is handled in `get_feed_albums`.) -/
def album_ratings (albums : List Album) (content : List ContentItem)
    (sr : String → Option Int) : String → Option ℚ :=
  match albums.getLast? with
  | none => fun _ => none
  | some album =>
      let asr := album_song_ratings content sr album
      if asr.isEmpty then fun _ => none
      else fun k => if k = album.albumId then some (listMean asr) else none

/-- `avg_genre_ratings[genre] = mean(genre_affinity[genre])`, present exactly
for genres with at least one collected rating. -/
def avg_genre_ratings (albums : List Album) (content : List ContentItem)
    (sr : String → Option Int) : String → Option ℚ :=
  fun genre =>
    let l := genre_affinity albums content sr genre
    if l.isEmpty then none else some (listMean l)

/-- `avg_artist_ratings[artistId] = mean(artist_affinity[artistId])`. -/
def avg_artist_ratings (albums : List Album) (content : List ContentItem)
    (sr : String → Option Int) : String → Option ℚ :=
  fun artistId =>
    let l := artist_affinity albums content sr artistId
    if l.isEmpty then none else some (listMean l)

/-- `recent_threshold = now - timedelta(days=30)`. -/
def recent_threshold (now : Int) : Int :=
  now - 30 * 86400

/-- `datetime.hour` of a timestamp in seconds. -/
def hourOf (t : Int) : Int :=
  (t % 86400) / 3600

/-- `genre_frequency[genre] += 1` for every history entry. -/
def genre_frequency (history : List HistoryEntry) : String → Nat :=
  history.foldl (fun c e => fun g => if g = e.genre then c g + 1 else c g)
    (fun _ => 0)

/-- `artist_frequency[artist] += 1` for every history entry. -/
def artist_frequency (history : List HistoryEntry) : String → Nat :=
  history.foldl (fun c e => fun a => if a = e.artist then c a + 1 else c a)
    (fun _ => 0)

/-- `recent_genre_frequency[genre] += 2` for entries with
`timestamp >= recent_threshold`. -/
def recent_genre_frequency (history : List HistoryEntry) (now : Int) : String → Nat :=
  history.foldl
    (fun c e =>
      if recent_threshold now ≤ e.timestamp then
        fun g => if g = e.genre then c g + 2 else c g
      else c)
    (fun _ => 0)

/-- `recent_artist_frequency[artist] += 2` for entries with
`timestamp >= recent_threshold`. -/
def recent_artist_frequency (history : List HistoryEntry) (now : Int) : String → Nat :=
  history.foldl
    (fun c e =>
      if recent_threshold now ≤ e.timestamp then
        fun a => if a = e.artist then c a + 2 else c a
      else c)
    (fun _ => 0)

/-- `hourly_genre_preferences[hour][genre] += 1` for every history entry
(keyed by the hour-of-day of the entry timestamp). -/
def hourly_genre_preferences (history : List HistoryEntry) : Int → String → Nat :=
  history.foldl
    (fun c e => fun h g =>
      if h = hourOf e.timestamp ∧ g = e.genre then c h g + 1 else c h g)
    (fun _ _ => 0)

/-- The album-rating contribution: `+(r-3)*20` when `r >= 4`, `-(3-r)*15`
when `r <= 2`, else nothing; no contribution when the album has no entry in
`album_ratings`. -/
def album_rating_term (ar : String → Option ℚ) (albumId : String) : ℚ :=
  match ar albumId with
  | some r => if 4 ≤ r then (r - 3) * 20 else if r ≤ 2 then -((3 - r) * 15) else 0
  | none => 0

/-- The genre-rating contribution: `+(r-3)*15` when `r >= 3.5`, `-(3-r)*10`
when `r <= 2.5`. -/
def genre_rating_term (avg : String → Option ℚ) (genre : String) : ℚ :=
  match avg genre with
  | some r =>
      if (3.5 : ℚ) ≤ r then (r - 3) * 15 else if r ≤ (2.5 : ℚ) then -((3 - r) * 10) else 0
  | none => 0

/-- The artist-rating contribution: `+(r-3)*25` when `r >= 3.5`, `-(3-r)*15`
when `r <= 2.5`. -/
def artist_rating_term (avg : String → Option ℚ) (artistId : String) : ℚ :=
  match avg artistId with
  | some r =>
      if (3.5 : ℚ) ≤ r then (r - 3) * 25 else if r ≤ (2.5 : ℚ) then -((3 - r) * 15) else 0
  | none => 0

/-- `min(total_genre_plays * 2, 30)` with
`total_genre_plays = genre_frequency[genre] + recent_genre_frequency[genre]`. -/
def genre_history_term (gf rgf : String → Nat) (genre : String) : ℚ :=
  min (((gf genre + rgf genre) * 2 : ℕ) : ℚ) 30

/-- `min(total_artist_plays * 3, 40)` with
`total_artist_plays = artist_frequency[artistId] + recent_artist_frequency[artistId]`. -/
def artist_history_term (af raf : String → Nat) (artistId : String) : ℚ :=
  min (((af artistId + raf artistId) * 3 : ℕ) : ℚ) 40

/-- `min(time_preference * 5, 25)` when the album's genre is a key of the
current hour's counter (a `Counter` key exists exactly when its count is
nonzero). -/
def hourly_term (hgp : Int → String → Nat) (currentHour : Int) (genre : String) : ℚ :=
  if hgp currentHour genre ≠ 0 then min ((hgp currentHour genre * 5 : ℕ) : ℚ) 25 else 0

/-- Trend bonus: `+15` when
`recent_genre_frequency[genre] > genre_frequency[genre] * 0.3`
(`0.3` is exactly `3/10` here). -/
def trend_term (gf rgf : String → Nat) (genre : String) : ℚ :=
  if ((gf genre : ℚ)) * (0.3 : ℚ) < (rgf genre : ℚ) then 15 else 0

/-- Aversion penalty: `-20` when the genre has an average rating below 2. -/
def aversion_term (avg : String → Option ℚ) (genre : String) : ℚ :=
  match avg genre with
  | some r => if r < 2 then -20 else 0
  | none => 0

/-- The per-album score of the scoring loop of `get_feed_albums`
(source lines 141-187): the sum of the subscription boost, the three
rating-derived terms, the two capped history-frequency terms, the
hour-of-day term, the trend bonus and the aversion penalty. -/
def album_score (subscriptions : List Subscription) (ratings : List Rating)
    (history : List HistoryEntry) (albums : List Album) (content : List ContentItem)
    (now : Int) (album : Album) : ℚ :=
  let sr := song_ratings ratings
  subscription_boost subscriptions albums album.albumId
    + album_rating_term (album_ratings albums content sr) album.albumId
    + genre_rating_term (avg_genre_ratings albums content sr) album.genre
    + artist_rating_term (avg_artist_ratings albums content sr) album.artistId
    + genre_history_term (genre_frequency history) (recent_genre_frequency history now)
        album.genre
    + artist_history_term (artist_frequency history) (recent_artist_frequency history now)
        album.artistId
    + hourly_term (hourly_genre_preferences history) (hourOf now) album.genre
    + trend_term (genre_frequency history) (recent_genre_frequency history now) album.genre
    + aversion_term (avg_genre_ratings albums content sr) album.genre

/-- One assignment `album_scores[album_id] = score` of the scoring loop,
on a dict modelled as a total function with default `0`. -/
def store_score (sc : Album → ℚ) (m : String → ℚ) (album : Album) : String → ℚ :=
  fun k => if k = album.albumId then sc album else m k

/-- The `album_scores` dict, keyed by `albumId` (a later album with the same
id overwrites an earlier one); `album_scores.get(albumId, 0)` is the sort key. -/
def album_scores (subscriptions : List Subscription) (ratings : List Rating)
    (history : List HistoryEntry) (albums : List Album) (content : List ContentItem)
    (now : Int) : String → ℚ :=
  albums.foldl (store_score (album_score subscriptions ratings history albums content now))
    (fun _ => 0)

/-- An album record after the scoring loop wrote `album['stats']['score']`. -/
structure ScoredAlbum where
  album : Album
  score : ℚ
  deriving DecidableEq

/-- The album list with each record carrying its own computed score in
`stats.score` (the in-loop mutation `album['stats']['score'] = score`). -/
def scored_albums (subscriptions : List Subscription) (ratings : List Rating)
    (history : List HistoryEntry) (albums : List Album) (content : List ContentItem)
    (now : Int) : List ScoredAlbum :=
  albums.map (fun a => ⟨a, album_score subscriptions ratings history albums content now a⟩)

/-- `sorted(albums, key=lambda album: album_scores.get(album['albumId'], 0),
reverse=True)`: Python `sorted` is a stable sort, and with `reverse=True` it
keeps tied elements in their original order; it is modelled by the stable
`List.mergeSort` with the key comparison reversed. -/
def sorted_feed (subscriptions : List Subscription) (ratings : List Rating)
    (history : List HistoryEntry) (albums : List Album) (content : List ContentItem)
    (now : Int) : List ScoredAlbum :=
  (scored_albums subscriptions ratings history albums content now).mergeSort
    (fun a b =>
      decide (album_scores subscriptions ratings history albums content now b.album.albumId
        ≤ album_scores subscriptions ratings history albums content now a.album.albumId))

/-- `get_feed_albums(subscriptions, ratings, history, albums, content)` at
scoring time `now`.  When `albums` is empty the dedented
`if album_song_ratings:` statement (see `album_ratings`) reads the undefined
loop variable and the function raises `NameError`; otherwise it returns the
scored, stably-sorted album list.  (`convert_decimals_to_float` is the
identity in this model, where scores are already plain rationals.) -/
def get_feed_albums (subscriptions : List Subscription) (ratings : List Rating)
    (history : List HistoryEntry) (albums : List Album) (content : List ContentItem)
    (now : Int) : Except String (List ScoredAlbum) :=
  if albums.isEmpty then
    .error "NameError: name album_song_ratings is not defined"
  else
    .ok (sorted_feed subscriptions ratings history albums content now)

/-! ## The rating store (`create_rating/index.py`) -/

/-- A stored rating row of the Ratings table (partition key `ratingId`). -/
structure RatingRecord where
  ratingId : String
  songId : String
  username : String
  stars : Int
  timestamp : String
  deriving DecidableEq

/-- DynamoDB `put_item` on the Ratings table: replaces the row with the same
partition key `ratingId` if one exists, otherwise inserts a new row. -/
def put_item (table : List RatingRecord) (item : RatingRecord) : List RatingRecord :=
  if table.any (fun r => r.ratingId = item.ratingId) then
    table.map (fun r => if r.ratingId = item.ratingId then item else r)
  else
    table ++ [item]

/-- `store_rating`: scans for an existing row with the same `username` and
`songId`; if any is found it raises (`ValueError`, re-raised by the
`except Exception` clause, so the table is left unchanged), otherwise it
stores the new rating. -/
def store_rating (table : List RatingRecord) (rating_data : RatingRecord) :
    Except String (List RatingRecord) :=
  if ¬ (table.filter
      (fun r => r.username = rating_data.username ∧ r.songId = rating_data.songId)).isEmpty
  then
    .error "You have already rated this item!"
  else
    .ok (put_item table rating_data)

/-- Outcome of one `create_rating` handler invocation: the HTTP status code
of the response and the resulting table state. -/
structure HandlerResult where
  statusCode : Nat
  table : List RatingRecord
  deriving DecidableEq

/-- The `create_rating` handler after body parsing, faithful to the source:
the stars-range check `if int(...) < 1 or int(...) > 5:` only CALLS
`create_error_response(400, ...)` and discards the result (the source has no
`return` there), so execution falls through to `store_rating` regardless;
a duplicate raises and is answered with 500, otherwise 201. -/
def create_rating_handler (table : List RatingRecord) (rating_data : RatingRecord) :
    HandlerResult :=
  let _discarded_error_response := rating_data.stars < 1 ∨ 5 < rating_data.stars
  match store_rating table rating_data with
  | .ok t => ⟨201, t⟩
  | .error _ => ⟨500, table⟩

/-! ## The history lookup (`get_user_history`) -/

/-- The `stats` attribute of a user row; the history list lives under the
(typo-named) key `llisteningHistory`, possibly absent. -/
structure UserStats where
  llisteningHistory : Option (List HistoryEntry)
  deriving DecidableEq

/-- A user row of the Users table as seen by `get_user_history`. -/
structure User where
  username : String
  stats : Option UserStats
  deriving DecidableEq

/-- `get_user_history(username)` given the Users-table contents: scans for
rows with this `username`; when none matches it returns `[]` (a new user has
no history, not an error), otherwise it returns
`items[0].get('stats', {}).get('llisteningHistory', [])`.  Only the data-store
access itself can fail in the source (the `except` clause re-raises); the
post-scan computation is total. -/
def get_user_history (users : List User) (username : String) : List HistoryEntry :=
  match users.filter (fun u => u.username = username) with
  | [] => []
  | user :: _ => (user.stats.bind (fun s => s.llisteningHistory)).getD []

/-! ## Derived notions used in the theorem statements -/

/-- The boost one single subscription/album pair contributes in the
subscription pass (the closed form the pass is proved equal to):
`+50` for an ARTIST subscription whose `artistId` field matches, `+30` for a
GENRE subscription whose `targetName` matches the genre case-insensitively. -/
def sub_boost_contribution (sub : Subscription) (album : Album) : ℚ :=
  if sub.subscriptionType = "ARTIST" then
    (if some album.artistId = sub.artistId then 50 else 0)
  else if sub.subscriptionType = "GENRE" then
    (if pyLower album.genre = pyLower sub.targetName then 30 else 0)
  else 0

/-- Two rating rows collide when they have the same `username` and `songId`. -/
def rating_key_clash (a b : RatingRecord) : Prop :=
  a.username = b.username ∧ a.songId = b.songId

/-- The ratings-table invariant: at most one rating per `(username, songId)`
pair. -/
def unique_user_song (table : List RatingRecord) : Prop :=
  table.Pairwise (fun a b => ¬ rating_key_clash a b)

/-- Distinctness of the DynamoDB partition keys of the Ratings table. -/
def distinct_rating_ids (table : List RatingRecord) : Prop :=
  (table.map RatingRecord.ratingId).Nodup

/-! ## Helper lemmas -/

/-- One album pass of the subscription loop, in closed form: the value at key
`k` grows by `v` for every album with `albumId = k` satisfying the guard. -/
lemma dictAdd_fold_eq (p : Album → Prop) [DecidablePred p] (v : ℚ) :
    ∀ (albums : List Album) (b : String → ℚ) (k : String),
    (albums.foldl (fun acc album => if p album then dictAdd acc album.albumId v else acc) b) k
      = b k + ((albums.filter (fun al => al.albumId = k)).map
          (fun al => if p al then v else 0)).sum := by
  intro albums
  induction albums with
  | nil => intro b k; simp
  | cons a t ih =>
    intro b k
    simp only [List.foldl_cons, List.filter_cons]
    by_cases hk : a.albumId = k
    · by_cases hp : p a
      · rw [if_pos hp, ih]
        simp [dictAdd, hk, hp, add_assoc]
      · rw [if_neg hp, ih]
        simp [hk, hp]
    · have hk2 : ¬ k = a.albumId := fun h => hk h.symm
      by_cases hp : p a
      · rw [if_pos hp, ih]
        simp [dictAdd, hk, hk2]
      · rw [if_neg hp, ih]
        simp [hk]

/-- One subscription step of the pass, in closed form. -/
lemma subscription_boost_step_eq (albums : List Album) (b : String → ℚ)
    (sub : Subscription) (k : String) :
    subscription_boost_step albums b sub k
      = b k + ((albums.filter (fun al => al.albumId = k)).map
          (fun al => sub_boost_contribution sub al)).sum := by
  unfold subscription_boost_step sub_boost_contribution
  by_cases hA : sub.subscriptionType = "ARTIST"
  · rw [if_pos hA, dictAdd_fold_eq (fun album => some album.artistId = sub.artistId) 50]
    simp [hA]
  · rw [if_neg hA]
    by_cases hG : sub.subscriptionType = "GENRE"
    · rw [if_pos hG,
        dictAdd_fold_eq (fun album => pyLower album.genre = pyLower sub.targetName) 30]
      simp [hA, hG]
    · rw [if_neg hG]
      simp [hA, hG]

/-- The whole subscription pass, in closed form: the accumulated boost at key
`k` is the sum over all subscriptions of the sum over all albums with
`albumId = k` of the per-pair contribution. -/
lemma subscription_boost_eq (subs : List Subscription) (albums : List Album) (k : String) :
    subscription_boost subs albums k
      = (subs.map (fun sub => ((albums.filter (fun al => al.albumId = k)).map
          (fun al => sub_boost_contribution sub al)).sum)).sum := by
  suffices h : ∀ (subs : List Subscription) (b : String → ℚ),
      (subs.foldl (subscription_boost_step albums) b) k
        = b k + (subs.map (fun sub => ((albums.filter (fun al => al.albumId = k)).map
            (fun al => sub_boost_contribution sub al)).sum)).sum by
    have := h subs (fun _ => 0)
    simpa [subscription_boost] using this
  intro subs
  induction subs with
  | nil => intro b; simp
  | cons s t ih =>
    intro b
    simp only [List.foldl_cons, List.map_cons, List.sum_cons]
    rw [ih, subscription_boost_step_eq]
    ring

/-- An unweighted frequency-counter pass, in closed form. -/
lemma counter_fold_eq (f : HistoryEntry → String) :
    ∀ (l : List HistoryEntry) (init : String → ℕ) (g : String),
    (l.foldl (fun c e => fun x => if x = f e then c x + 1 else c x) init) g
      = init g + (l.filter (fun e => f e = g)).length := by
  intro l
  induction l with
  | nil => intro init g; simp
  | cons e t ih =>
    intro init g
    simp only [List.foldl_cons, List.filter_cons]
    rw [ih]
    by_cases hg : f e = g
    · simp only [hg, if_pos rfl, decide_True, if_true, List.length_cons]
      omega
    · have hg2 : ¬ g = f e := fun h => hg h.symm
      simp [hg, hg2]

/-- A guarded, weighted frequency-counter pass, in closed form. -/
lemma counter_guarded_fold_eq (f : HistoryEntry → String) (q : HistoryEntry → Prop)
    [DecidablePred q] (w : ℕ) :
    ∀ (l : List HistoryEntry) (init : String → ℕ) (g : String),
    (l.foldl (fun c e => if q e then (fun x => if x = f e then c x + w else c x) else c) init) g
      = init g + w * (l.filter (fun e => q e ∧ f e = g)).length := by
  intro l
  induction l with
  | nil => intro init g; simp
  | cons e t ih =>
    intro init g
    simp only [List.foldl_cons, List.filter_cons]
    by_cases hq : q e
    · rw [if_pos hq, ih]
      by_cases hg : f e = g
      · simp only [hg, if_pos rfl, hq, true_and, decide_True, if_true, List.length_cons]
        ring_nf
      · have hg2 : ¬ g = f e := fun h => hg h.symm
        simp [hq, hg, hg2]
    · rw [if_neg hq, ih]
      simp [hq]

/-- `genre_frequency` counts the history entries with the given genre. -/
lemma genre_frequency_eq (history : List HistoryEntry) (g : String) :
    genre_frequency history g = (history.filter (fun e => e.genre = g)).length := by
  have h := counter_fold_eq (fun e => e.genre) history (fun _ => 0) g
  simpa [genre_frequency] using h

/-- `artist_frequency` counts the history entries with the given artist. -/
lemma artist_frequency_eq (history : List HistoryEntry) (a : String) :
    artist_frequency history a = (history.filter (fun e => e.artist = a)).length := by
  have h := counter_fold_eq (fun e => e.artist) history (fun _ => 0) a
  simpa [artist_frequency] using h

/-- `recent_genre_frequency` is twice the number of in-window entries with the
given genre: an entry contributes (weight 2) exactly when
`recent_threshold now ≤ timestamp`. -/
lemma recent_genre_frequency_eq (history : List HistoryEntry) (now : Int) (g : String) :
    recent_genre_frequency history now g
      = 2 * (history.filter (fun e => recent_threshold now ≤ e.timestamp ∧ e.genre = g)).length := by
  have h := counter_guarded_fold_eq (fun e => e.genre)
    (fun e => recent_threshold now ≤ e.timestamp) 2 history (fun _ => 0) g
  simpa [recent_genre_frequency] using h

/-- `recent_artist_frequency` is twice the number of in-window entries with
the given artist. -/
lemma recent_artist_frequency_eq (history : List HistoryEntry) (now : Int) (a : String) :
    recent_artist_frequency history now a
      = 2 * (history.filter (fun e => recent_threshold now ≤ e.timestamp ∧ e.artist = a)).length := by
  have h := counter_guarded_fold_eq (fun e => e.artist)
    (fun e => recent_threshold now ≤ e.timestamp) 2 history (fun _ => 0) a
  simpa [recent_artist_frequency] using h

/-- With no ratings, the track-rating lookup for any album finds nothing. -/
lemma album_song_ratings_none (content : List ContentItem) (album : Album) :
    album_song_ratings content (fun _ => none) album = [] := by
  rw [album_song_ratings, List.filterMap_eq_nil_iff]
  intro song _
  cases song.contentId <;> rfl

/-- With no ratings, `genre_affinity` is empty at every genre. -/
lemma genre_affinity_none (albums : List Album) (content : List ContentItem) (g : String) :
    genre_affinity albums content (fun _ => none) g = [] := by
  suffices h : ∀ (l : List Album) (m : String → List Int), m g = [] →
      (l.foldl
        (fun m album => fun g2 =>
          if g2 = album.genre then m g2 ++ album_song_ratings content (fun _ => none) album
          else m g2)
        m) g = [] by
    exact h albums (fun _ => []) rfl
  intro l
  induction l with
  | nil => intro m hm; simpa using hm
  | cons a t ih =>
    intro m hm
    simp only [List.foldl_cons]
    apply ih
    by_cases hg : g = a.genre
    · simp [hg, hm, album_song_ratings_none, hg ▸ hm]
    · simp [hg, hm]

/-- With no ratings, `artist_affinity` is empty at every artist. -/
lemma artist_affinity_none (albums : List Album) (content : List ContentItem) (a : String) :
    artist_affinity albums content (fun _ => none) a = [] := by
  suffices h : ∀ (l : List Album) (m : String → List Int), m a = [] →
      (l.foldl
        (fun m album => fun a2 =>
          if a2 = album.artistId then m a2 ++ album_song_ratings content (fun _ => none) album
          else m a2)
        m) a = [] by
    exact h albums (fun _ => []) rfl
  intro l
  induction l with
  | nil => intro m hm; simpa using hm
  | cons x t ih =>
    intro m hm
    simp only [List.foldl_cons]
    apply ih
    by_cases hx : a = x.artistId
    · simp [hx, hm, album_song_ratings_none, hx ▸ hm]
    · simp [hx, hm]

/-- With no ratings, no album receives an `album_ratings` entry. -/
lemma album_ratings_none (albums : List Album) (content : List ContentItem) (k : String) :
    album_ratings albums content (fun _ => none) k = none := by
  unfold album_ratings
  cases h : albums.getLast? with
  | none => rfl
  | some a => simp [album_song_ratings_none]

/-- With empty subscriptions, ratings and history, every album scores `0`. -/
lemma album_score_empty_signals (albums : List Album) (content : List ContentItem)
    (now : Int) (album : Album) :
    album_score [] [] [] albums content now album = 0 := by
  have hsr : song_ratings [] = (fun _ => none) := rfl
  rw [album_score]
  simp only [hsr, subscription_boost, List.foldl_nil,
    album_rating_term, album_ratings_none,
    genre_rating_term, avg_genre_ratings, genre_affinity_none,
    artist_rating_term, avg_artist_ratings, artist_affinity_none,
    aversion_term,
    genre_history_term, artist_history_term, hourly_term, trend_term,
    genre_frequency, artist_frequency, recent_genre_frequency, recent_artist_frequency,
    hourly_genre_preferences]
  norm_num

/-- With empty signals the `album_scores` dict is `0` everywhere. -/
lemma album_scores_empty_signals (albums : List Album) (content : List ContentItem)
    (now : Int) (k : String) :
    album_scores [] [] [] albums content now k = 0 := by
  rw [album_scores]
  suffices h : ∀ (l : List Album) (m : String → ℚ), m k = 0 →
      (l.foldl (store_score (album_score [] [] [] albums content now)) m) k = 0 by
    exact h albums (fun _ => 0) rfl
  intro l
  induction l with
  | nil => intro m hm; simpa using hm
  | cons a t ih =>
    intro m hm
    simp only [List.foldl_cons]
    apply ih
    rw [store_score]
    by_cases hk : k = a.albumId
    · simp [hk, album_score_empty_signals]
    · simp [hk, hm]

/-- Writes to other keys do not change the dict at `k`. -/
lemma store_score_fold_not_mem (sc : Album → ℚ) :
    ∀ (l : List Album) (m : String → ℚ) (k : String), k ∉ l.map Album.albumId →
    (l.foldl (store_score sc) m) k = m k := by
  intro l
  induction l with
  | nil => intro m k _; rfl
  | cons a t ih =>
    intro m k hk
    simp only [List.map_cons, List.mem_cons, not_or] at hk
    simp only [List.foldl_cons]
    rw [ih (store_score sc m a) k hk.2, store_score]
    simp [hk.1]

/-- When the `albumId`s are pairwise distinct, the `album_scores` dict holds
each album's own score. -/
lemma store_score_fold_lookup (sc : Album → ℚ) :
    ∀ (l : List Album) (m : String → ℚ) (al : Album),
    (l.map Album.albumId).Nodup → al ∈ l →
    (l.foldl (store_score sc) m) al.albumId = sc al := by
  intro l
  induction l with
  | nil => intro m al _ h; cases h
  | cons a t ih =>
    intro m al hnd hmem
    simp only [List.map_cons, List.nodup_cons] at hnd
    simp only [List.foldl_cons]
    rcases List.mem_cons.mp hmem with rfl | hal
    · rw [store_score_fold_not_mem sc t (store_score sc m al) al.albumId hnd.1, store_score]
      simp
    · exact ih (store_score sc m a) al hnd.2 hal

/-- Transitivity of the descending key comparison used by the ranker. -/
lemma key_le_trans {α : Type} (key : α → ℚ) (a b c : α)
    (hab : decide (key b ≤ key a) = true) (hbc : decide (key c ≤ key b) = true) :
    decide (key c ≤ key a) = true := by
  simp only [decide_eq_true_eq] at *
  exact le_trans hbc hab

/-- Totality of the descending key comparison. -/
lemma key_le_total {α : Type} (key : α → ℚ) (a b : α) :
    (decide (key b ≤ key a) || decide (key a ≤ key b)) = true := by
  simp only [Bool.or_eq_true, decide_eq_true_eq]
  exact le_total (key b) (key a)

/-! ## Claims -/

/-- C1.  The spec says an ARTIST subscription whose `targetId` equals an
album's `artistId` adds `+50` to that album.  The code instead compares
`album['artistId']` against `sub.get('artistId')`, a key the subscription
transform never produces, so a pipeline ARTIST subscription whose `targetId`
matches the album's artist contributes nothing: with one such subscription
and one album by that artist the subscription boost is `0` and the album's
final score is `0`, not `50`. -/
theorem c1_artist_subscription_boost_never_fires :
    subscription_boost [⟨"ARTIST", "A1", "Artist One", none⟩] [⟨"AL1", "A1", "rock"⟩] "AL1"
      = 0
    ∧ get_feed_albums [⟨"ARTIST", "A1", "Artist One", none⟩] [] [] [⟨"AL1", "A1", "rock"⟩]
        [] 0
      = .ok [⟨⟨"AL1", "A1", "rock"⟩, 0⟩] := by
  have hscore : album_score [⟨"ARTIST", "A1", "Artist One", none⟩] [] []
      [⟨"AL1", "A1", "rock"⟩] [] 0 ⟨"AL1", "A1", "rock"⟩ = 0 := by
    norm_num +decide [album_score, subscription_boost, subscription_boost_step,
      song_ratings, album_ratings, album_song_ratings, avg_genre_ratings,
      avg_artist_ratings, genre_affinity, artist_affinity, listMean,
      album_rating_term, genre_rating_term, artist_rating_term, genre_history_term,
      artist_history_term, hourly_term, trend_term, aversion_term, genre_frequency,
      artist_frequency, recent_genre_frequency, recent_artist_frequency,
      hourly_genre_preferences, recent_threshold, hourOf, dictAdd,
      List.filterMap_cons, Option.bind]
  constructor
  · norm_num +decide [subscription_boost, subscription_boost_step]
  · simp [get_feed_albums, sorted_feed, scored_albums, hscore]

/-- C2.  The spec says every album with at least one rated track gets
`albumRating = mean(track ratings)` and a 5-star-only album gets `+40`.
In the code the statement `if album_song_ratings: album_ratings[...] = ...`
is dedented out of the album loop, so only the LAST catalog album can receive
an entry: with catalog `[AL1, AL2]`, a 5-star rating on AL1's only track is
found (`album_song_ratings = [5]`) but AL1 gets no `album_ratings` entry, its
album-rating term is `0` and its final score is `80` (genre `+30` and artist
`+50` affinity only) instead of the claimed `120`; the same album as the only
catalog entry does get `albumRating = 5` and score `120` (`+40` included). -/
theorem c2_album_rating_dedent_skips_albums :
    album_song_ratings [⟨some "AL1", some "S1"⟩] (song_ratings [⟨"S1", 5⟩])
        ⟨"AL1", "A1", "rock"⟩ = [5]
    ∧ album_ratings [⟨"AL1", "A1", "rock"⟩, ⟨"AL2", "A2", "jazz"⟩]
        [⟨some "AL1", some "S1"⟩] (song_ratings [⟨"S1", 5⟩]) "AL1" = none
    ∧ album_score [] [⟨"S1", 5⟩] [] [⟨"AL1", "A1", "rock"⟩, ⟨"AL2", "A2", "jazz"⟩]
        [⟨some "AL1", some "S1"⟩] 0 ⟨"AL1", "A1", "rock"⟩ = 80
    ∧ album_ratings [⟨"AL1", "A1", "rock"⟩] [⟨some "AL1", some "S1"⟩]
        (song_ratings [⟨"S1", 5⟩]) "AL1" = some 5
    ∧ album_score [] [⟨"S1", 5⟩] [] [⟨"AL1", "A1", "rock"⟩]
        [⟨some "AL1", some "S1"⟩] 0 ⟨"AL1", "A1", "rock"⟩ = 120 := by
  refine ⟨?_, ?_, ?_, ?_, ?_⟩ <;>
    norm_num +decide [album_score, subscription_boost, subscription_boost_step,
      song_ratings, album_ratings, album_song_ratings, avg_genre_ratings,
      avg_artist_ratings, genre_affinity, artist_affinity, listMean,
      album_rating_term, genre_rating_term, artist_rating_term, genre_history_term,
      artist_history_term, hourly_term, trend_term, aversion_term, genre_frequency,
      artist_frequency, recent_genre_frequency, recent_artist_frequency,
      hourly_genre_preferences, recent_threshold, hourOf, dictAdd,
      List.filterMap_cons, Option.bind]

/-- C3.  The history pass: every entry adds `1` to `genre_frequency[genre]`
and `artist_frequency[artist]`; an entry adds `2` to the recent counters
exactly when its timestamp is within the last 30 days
(`recent_threshold now ≤ timestamp`); and each album's score contains exactly
the terms `min((genre_frequency + recent_genre_frequency) * 2, 30)` and
`min((artist_frequency + recent_artist_frequency) * 3, 40)` on top of the
non-history terms. -/
theorem c3_history_frequency_terms (subs : List Subscription) (ratings : List Rating)
    (history : List HistoryEntry) (albums : List Album) (content : List ContentItem)
    (now : Int) (album : Album) :
    genre_frequency history album.genre
        = (history.filter (fun e => e.genre = album.genre)).length
    ∧ artist_frequency history album.artistId
        = (history.filter (fun e => e.artist = album.artistId)).length
    ∧ recent_genre_frequency history now album.genre
        = 2 * (history.filter
            (fun e => recent_threshold now ≤ e.timestamp ∧ e.genre = album.genre)).length
    ∧ recent_artist_frequency history now album.artistId
        = 2 * (history.filter
            (fun e => recent_threshold now ≤ e.timestamp ∧ e.artist = album.artistId)).length
    ∧ album_score subs ratings history albums content now album
        = (subscription_boost subs albums album.albumId
            + album_rating_term (album_ratings albums content (song_ratings ratings))
                album.albumId
            + genre_rating_term (avg_genre_ratings albums content (song_ratings ratings))
                album.genre
            + artist_rating_term (avg_artist_ratings albums content (song_ratings ratings))
                album.artistId
            + hourly_term (hourly_genre_preferences history) (hourOf now) album.genre
            + trend_term (genre_frequency history) (recent_genre_frequency history now)
                album.genre
            + aversion_term (avg_genre_ratings albums content (song_ratings ratings))
                album.genre)
          + min (((genre_frequency history album.genre
              + recent_genre_frequency history now album.genre) * 2 : ℕ) : ℚ) 30
          + min (((artist_frequency history album.artistId
              + recent_artist_frequency history now album.artistId) * 3 : ℕ) : ℚ) 40 := by
  refine ⟨genre_frequency_eq history album.genre, artist_frequency_eq history album.artistId,
    recent_genre_frequency_eq history now album.genre,
    recent_artist_frequency_eq history now album.artistId, ?_⟩
  rw [album_score, genre_history_term, artist_history_term]
  ring

/-- C4.  The subscription pass in closed form: the boost accumulated at key
`k` is the sum over all subscriptions and all albums with `albumId = k` of
the per-pair contribution, which for a GENRE subscription is `+30` exactly
when `targetName` equals the album's genre case-insensitively; so matches
accumulate additively with no cap, and a `"Rock"` subscription boosts a
`"rock"` album. -/
theorem c4_genre_subscription_case_insensitive (subs : List Subscription)
    (albums : List Album) (k : String) :
    subscription_boost subs albums k
        = (subs.map (fun sub => ((albums.filter (fun al => al.albumId = k)).map
            (fun al => sub_boost_contribution sub al)).sum)).sum
    ∧ (∀ sub : Subscription, ∀ album : Album, sub.subscriptionType = "GENRE" →
        sub_boost_contribution sub album
          = if pyLower album.genre = pyLower sub.targetName then 30 else 0)
    ∧ subscription_boost [⟨"GENRE", "", "Rock", none⟩] [⟨"AL1", "A1", "rock"⟩] "AL1" = 30
    ∧ subscription_boost
        [⟨"GENRE", "", "Rock", none⟩, ⟨"GENRE", "", "ROCK", none⟩]
        [⟨"AL1", "A1", "rock"⟩] "AL1" = 60 := by
  refine ⟨subscription_boost_eq subs albums k, ?_, ?_, ?_⟩
  · intro sub album hG
    simp [sub_boost_contribution, hG]
  · norm_num +decide [subscription_boost, subscription_boost_step, dictAdd, pyLower]
  · norm_num +decide [subscription_boost, subscription_boost_step, dictAdd, pyLower]

/-- C4, witness: the per-pair contribution formula for a concrete GENRE
subscription. -/
theorem c4_genre_subscription_witness :
    sub_boost_contribution ⟨"GENRE", "x", "Rock", none⟩ ⟨"AL9", "A9", "rock"⟩
      = if pyLower "rock" = pyLower "Rock" then 30 else 0 :=
  (c4_genre_subscription_case_insensitive [] [] "AL9").2.1
    ⟨"GENRE", "x", "Rock", none⟩ ⟨"AL9", "A9", "rock"⟩ rfl

/-- C5, counterexample.  The sort key is `album_scores.get(albumId, 0)`, a
dict keyed by `albumId` in which a later album overwrites an earlier one, so
with two records sharing an `albumId` the returned list need not be sorted by
the scores attached to the records: catalog `[⟨X, a2, jazz⟩, ⟨X, a1, rock⟩]`
with one old rock history entry gives attached scores `0` and `2`, both sort
keys are `2`, the stable sort keeps the input order, and the output
`[score 0, score 2]` is not descending. -/
theorem c5_counterexample_duplicate_album_ids :
    get_feed_albums [] [] [⟨"rock", "zz", 0⟩] [⟨"X", "a2", "jazz"⟩, ⟨"X", "a1", "rock"⟩]
        [] 4363200
      = .ok [⟨⟨"X", "a2", "jazz"⟩, 0⟩, ⟨⟨"X", "a1", "rock"⟩, 2⟩]
    ∧ ¬ ([⟨⟨"X", "a2", "jazz"⟩, 0⟩, ⟨⟨"X", "a1", "rock"⟩, 2⟩] : List ScoredAlbum).Pairwise
        (fun a b => b.score ≤ a.score) := by
  have hA : album_score [] [] [⟨"rock", "zz", 0⟩]
      [⟨"X", "a2", "jazz"⟩, ⟨"X", "a1", "rock"⟩] [] 4363200
      ⟨"X", "a1", "rock"⟩ = 2 := by
    norm_num +decide [album_score, subscription_boost, subscription_boost_step,
      song_ratings, album_ratings, album_song_ratings, avg_genre_ratings,
      avg_artist_ratings, genre_affinity, artist_affinity, listMean,
      album_rating_term, genre_rating_term, artist_rating_term, genre_history_term,
      artist_history_term, hourly_term, trend_term, aversion_term, genre_frequency,
      artist_frequency, recent_genre_frequency, recent_artist_frequency,
      hourly_genre_preferences, recent_threshold, hourOf, dictAdd,
      List.filterMap_cons, Option.bind]
  have hB : album_score [] [] [⟨"rock", "zz", 0⟩]
      [⟨"X", "a2", "jazz"⟩, ⟨"X", "a1", "rock"⟩] [] 4363200
      ⟨"X", "a2", "jazz"⟩ = 0 := by
    norm_num +decide [album_score, subscription_boost, subscription_boost_step,
      song_ratings, album_ratings, album_song_ratings, avg_genre_ratings,
      avg_artist_ratings, genre_affinity, artist_affinity, listMean,
      album_rating_term, genre_rating_term, artist_rating_term, genre_history_term,
      artist_history_term, hourly_term, trend_term, aversion_term, genre_frequency,
      artist_frequency, recent_genre_frequency, recent_artist_frequency,
      hourly_genre_preferences, recent_threshold, hourOf, dictAdd,
      List.filterMap_cons, Option.bind]
  constructor
  · have hscored : scored_albums [] [] [⟨"rock", "zz", 0⟩]
        [⟨"X", "a2", "jazz"⟩, ⟨"X", "a1", "rock"⟩] [] 4363200
        = [⟨⟨"X", "a2", "jazz"⟩, 0⟩, ⟨⟨"X", "a1", "rock"⟩, 2⟩] := by
      rw [scored_albums]
      simp [hA, hB]
    rw [get_feed_albums, if_neg (by simp), sorted_feed, hscored]
    rw [List.mergeSort_of_sorted]
    simp [List.pairwise_cons]
  · intro hpw
    have h := (List.pairwise_cons.mp hpw).1 ⟨⟨"X", "a1", "rock"⟩, 2⟩ (by simp)
    norm_num at h

/-- C5, amended.  For a nonempty catalog whose `albumId`s are pairwise
distinct (the DynamoDB partition-key situation), the ranker succeeds and
returns a permutation of the catalog, sorted by the attached score in
descending order, with tied records keeping their original catalog order
(stability: every tied pair that is a sublist of the scored input is still a
sublist of the output), and every returned record carries its own computed
score in `stats.score`. -/
theorem c5_ranker_sorted_stable_permutation (subs : List Subscription)
    (ratings : List Rating) (history : List HistoryEntry) (albums : List Album)
    (content : List ContentItem) (now : Int)
    (hne : albums ≠ []) (hnd : (albums.map Album.albumId).Nodup) :
    get_feed_albums subs ratings history albums content now
        = .ok (sorted_feed subs ratings history albums content now)
    ∧ ((sorted_feed subs ratings history albums content now).map
        ScoredAlbum.album).Perm albums
    ∧ (sorted_feed subs ratings history albums content now).Pairwise
        (fun a b => b.score ≤ a.score)
    ∧ (∀ a b : ScoredAlbum,
        List.Sublist [a, b] (scored_albums subs ratings history albums content now) →
        a.score = b.score →
        List.Sublist [a, b] (sorted_feed subs ratings history albums content now))
    ∧ (∀ sa ∈ sorted_feed subs ratings history albums content now,
        sa.score = album_score subs ratings history albums content now sa.album) := by
  have htrans := fun a b c =>
    key_le_trans (fun sa : ScoredAlbum =>
      album_scores subs ratings history albums content now sa.album.albumId) a b c
  have htotal := fun a b =>
    key_le_total (fun sa : ScoredAlbum =>
      album_scores subs ratings history albums content now sa.album.albumId) a b
  have hmemkey : ∀ sa ∈ scored_albums subs ratings history albums content now,
      album_scores subs ratings history albums content now sa.album.albumId = sa.score := by
    intro sa hsa
    obtain ⟨al, hal, rfl⟩ := List.mem_map.mp hsa
    rw [album_scores]
    exact store_score_fold_lookup _ albums _ al hnd hal
  refine ⟨?_, ?_, ?_, ?_, ?_⟩
  · rw [get_feed_albums, if_neg (by simpa [List.isEmpty_iff] using hne)]
  · have hperm : (sorted_feed subs ratings history albums content now).Perm
        (scored_albums subs ratings history albums content now) :=
      List.mergeSort_perm _ _
    have h3 : (scored_albums subs ratings history albums content now).map
        ScoredAlbum.album = albums := by
      rw [scored_albums, List.map_map]
      rw [show (ScoredAlbum.album ∘ fun a =>
          (⟨a, album_score subs ratings history albums content now a⟩ : ScoredAlbum)) = id
        from rfl, List.map_id]
    have h4 := hperm.map ScoredAlbum.album
    rw [h3] at h4
    exact h4
  · have hsorted := List.sorted_mergeSort htrans htotal
      (scored_albums subs ratings history albums content now)
    refine List.Pairwise.imp_of_mem ?_ hsorted
    intro a b ha hb hab
    have ha2 := hmemkey a (List.mem_mergeSort.mp ha)
    have hb2 := hmemkey b (List.mem_mergeSort.mp hb)
    have hq := of_decide_eq_true hab
    rw [ha2, hb2] at hq
    exact hq
  · intro a b hsub heq
    have ha : a ∈ scored_albums subs ratings history albums content now :=
      hsub.subset (by simp)
    have hb : b ∈ scored_albums subs ratings history albums content now :=
      hsub.subset (by simp)
    refine List.pair_sublist_mergeSort htrans htotal ?_ hsub
    have := hmemkey a ha
    have := hmemkey b hb
    exact decide_eq_true_eq.mpr (by rw [hmemkey a ha, hmemkey b hb, heq])
  · intro sa hsa
    have hmem : sa ∈ scored_albums subs ratings history albums content now := by
      rw [sorted_feed] at hsa
      exact List.mem_mergeSort.mp hsa
    obtain ⟨al, hal, rfl⟩ := List.mem_map.mp hmem
    rfl

/-- C5, witness for the amended theorem at a concrete one-album catalog. -/
theorem c5_ranker_witness :
    get_feed_albums [] [] [] [⟨"AL1", "A1", "rock"⟩] [] 0
        = .ok (sorted_feed [] [] [] [⟨"AL1", "A1", "rock"⟩] [] 0)
    ∧ ((sorted_feed [] [] [] [⟨"AL1", "A1", "rock"⟩] [] 0).map
        ScoredAlbum.album).Perm [⟨"AL1", "A1", "rock"⟩]
    ∧ (sorted_feed [] [] [] [⟨"AL1", "A1", "rock"⟩] [] 0).Pairwise
        (fun a b => b.score ≤ a.score) := by
  have h := c5_ranker_sorted_stable_permutation [] [] [] [⟨"AL1", "A1", "rock"⟩] [] 0
    (by simp) (by simp)
  exact ⟨h.1, h.2.1, h.2.2.1⟩

/-- C6, counterexample.  The claim quantifies over every catalog, but on an
empty catalog the scoring run does not return an empty ranked list: the
dedented `if album_song_ratings:` statement reads a loop variable that was
never assigned and the run raises `NameError`. -/
theorem c6_counterexample_empty_catalog :
    get_feed_albums [] [] [] [] [] 0
      = .error "NameError: name album_song_ratings is not defined" := rfl

/-- C6, amended.  For every NONEMPTY catalog, a user with empty
subscriptions, empty ratings and empty history gets a successful run whose
output lists every catalog album in order with score `0`. -/
theorem c6_empty_signals_all_scores_zero (albums : List Album)
    (content : List ContentItem) (now : Int) (hne : albums ≠ []) :
    get_feed_albums [] [] [] albums content now
      = .ok (albums.map (fun a => ⟨a, 0⟩)) := by
  rw [get_feed_albums, if_neg (by simpa [List.isEmpty_iff] using hne)]
  have hscored : scored_albums [] [] [] albums content now
      = albums.map (fun a => ⟨a, 0⟩) := by
    rw [scored_albums]
    exact List.map_congr_left (fun a _ => by rw [album_score_empty_signals])
  rw [sorted_feed, hscored, List.mergeSort_of_sorted]
  apply List.pairwise_of_forall
  intro x y
  simp [album_scores_empty_signals]

/-- C6, witness for the amended theorem at a concrete one-album catalog. -/
theorem c6_empty_signals_witness :
    ([⟨"AL1", "A1", "rock"⟩] : List Album) ≠ []
    ∧ get_feed_albums [] [] [] [⟨"AL1", "A1", "rock"⟩] [] 0
        = .ok [⟨⟨"AL1", "A1", "rock"⟩, 0⟩] :=
  ⟨by simp, c6_empty_signals_all_scores_zero [⟨"AL1", "A1", "rock"⟩] [] 0 (by simp)⟩

/-- Writing a non-clashing rating into a well-formed table keeps the table
well-formed: `put_item` either replaces the row with the same partition key
or appends a fresh row, and in both cases key distinctness and
`(username, songId)` uniqueness survive. -/
lemma put_item_preserves_invariants (table : List RatingRecord) (rd : RatingRecord)
    (hids : distinct_rating_ids table) (huniq : unique_user_song table)
    (hno : ∀ r ∈ table, ¬ rating_key_clash r rd) :
    distinct_rating_ids (put_item table rd) ∧ unique_user_song (put_item table rd) := by
  rw [unique_user_song] at huniq
  rw [put_item]
  by_cases hany : table.any (fun r => r.ratingId = rd.ratingId) = true
  · rw [if_pos hany]
    have hmap_ids : (table.map (fun r => if r.ratingId = rd.ratingId then rd else r)).map
        RatingRecord.ratingId = table.map RatingRecord.ratingId := by
      rw [List.map_map]
      refine List.map_congr_left ?_
      intro r _
      by_cases h : r.ratingId = rd.ratingId
      · simp [Function.comp, h]
      · simp [Function.comp, h]
    have hpid : table.Pairwise (fun a b => a.ratingId ≠ b.ratingId) := by
      rw [distinct_rating_ids] at hids
      exact List.pairwise_map.mp hids
    constructor
    · rw [distinct_rating_ids, hmap_ids]
      exact hids
    · rw [unique_user_song, List.pairwise_map]
      refine List.Pairwise.imp_of_mem ?_ (hpid.and huniq)
      intro a b ha hb hab
      obtain ⟨hne, hnc⟩ := hab
      by_cases haid : a.ratingId = rd.ratingId
      · by_cases hbid : b.ratingId = rd.ratingId
        · exact absurd (haid.trans hbid.symm) hne
        · simp only [if_pos haid, if_neg hbid]
          intro hc
          exact hno b hb ⟨hc.1.symm, hc.2.symm⟩
      · by_cases hbid : b.ratingId = rd.ratingId
        · simp only [if_neg haid, if_pos hbid]
          intro hc
          exact hno a ha hc
        · simp only [if_neg haid, if_neg hbid]
          exact hnc
  · rw [if_neg hany]
    have hfresh : rd.ratingId ∉ table.map RatingRecord.ratingId := by
      intro hmem
      obtain ⟨r, hr, hid⟩ := List.mem_map.mp hmem
      exact hany (List.any_eq_true.mpr ⟨r, hr, by simp [hid]⟩)
    constructor
    · rw [distinct_rating_ids, List.map_append, List.nodup_append]
      refine ⟨hids, by simp, ?_⟩
      intro x hx hx2
      simp only [List.map_cons, List.map_nil, List.mem_singleton] at hx2
      subst hx2
      exact hfresh hx
    · rw [unique_user_song, List.pairwise_append]
      refine ⟨huniq, List.pairwise_singleton _ _, ?_⟩
      intro a ha b hb
      simp only [List.mem_singleton] at hb
      subst hb
      exact hno a ha

/-- C7.  `store_rating` rejects a request exactly when the table already
holds a rating with the same `username` and `songId` (raising without
touching the table), stores the new rating otherwise, and thus preserves the
well-formedness of the table: distinct partition keys, and at most one rating
per `(username, songId)` pair. -/
theorem c7_store_rating_unique_per_user_song (table : List RatingRecord)
    (rd : RatingRecord) :
    ((∃ r ∈ table, rating_key_clash r rd) →
      store_rating table rd = .error "You have already rated this item!")
    ∧ ((¬ ∃ r ∈ table, rating_key_clash r rd) →
      store_rating table rd = .ok (put_item table rd))
    ∧ (∀ t', distinct_rating_ids table → unique_user_song table →
        store_rating table rd = .ok t' →
        distinct_rating_ids t' ∧ unique_user_song t') := by
  refine ⟨?_, ?_, ?_⟩
  · intro h
    have hcond : ¬ ((table.filter
        (fun r => decide (r.username = rd.username ∧ r.songId = rd.songId))).isEmpty = true) := by
      intro hemp
      rw [List.isEmpty_iff, List.filter_eq_nil_iff] at hemp
      obtain ⟨r, hr, hc⟩ := h
      exact hemp r hr (by simpa [rating_key_clash] using hc)
    rw [store_rating, if_pos hcond]
  · intro h
    have hemp : (table.filter
        (fun r => decide (r.username = rd.username ∧ r.songId = rd.songId))).isEmpty = true := by
      rw [List.isEmpty_iff, List.filter_eq_nil_iff]
      intro r hr hp
      exact h ⟨r, hr, by simpa [rating_key_clash] using hp⟩
    rw [store_rating, if_neg (fun hc => hc hemp)]
  · intro t' hids huniq hok
    by_cases hemp : (table.filter
        (fun r => decide (r.username = rd.username ∧ r.songId = rd.songId))).isEmpty = true
    · rw [store_rating, if_neg (fun hc => hc hemp)] at hok
      injection hok with ht'
      subst ht'
      have hno : ∀ r ∈ table, ¬ rating_key_clash r rd := by
        rw [List.isEmpty_iff, List.filter_eq_nil_iff] at hemp
        intro r hr hc
        exact hemp r hr (by simpa [rating_key_clash] using hc)
      exact put_item_preserves_invariants table rd hids huniq hno
    · rw [store_rating, if_pos hemp] at hok
      cases hok

/-- C7, witness: a duplicate `(username, songId)` pair is rejected, and an
insert into a table without the pair succeeds. -/
theorem c7_store_rating_witness :
    store_rating [⟨"rid0", "S1", "alice", 4, "t0"⟩] ⟨"rid1", "S1", "alice", 5, "t1"⟩
        = .error "You have already rated this item!"
    ∧ store_rating [] ⟨"rid1", "S1", "alice", 5, "t1"⟩
        = .ok [⟨"rid1", "S1", "alice", 5, "t1"⟩] := by
  constructor
  · exact (c7_store_rating_unique_per_user_song
      [⟨"rid0", "S1", "alice", 4, "t0"⟩] ⟨"rid1", "S1", "alice", 5, "t1"⟩).1
      ⟨⟨"rid0", "S1", "alice", 4, "t0"⟩, by simp, by constructor <;> rfl⟩
  · exact (c7_store_rating_unique_per_user_song [] ⟨"rid1", "S1", "alice", 5, "t1"⟩).2.1
      (by simp)

/-- C8.  The spec says a request with `stars` outside 1..5 is rejected with
an error response and nothing is stored.  In the code the range check only
computes `create_error_response(400, ...)` without returning it, so the
handler falls through: a 6-star request against an empty table is stored and
answered `201`. -/
theorem c8_out_of_range_stars_still_stored :
    ((6 : Int) < 1 ∨ (5 : Int) < 6)
    ∧ create_rating_handler [] ⟨"rid1", "S1", "alice", 6, "t0"⟩
        = ⟨201, [⟨"rid1", "S1", "alice", 6, "t0"⟩]⟩ := by
  constructor
  · right
    norm_num
  · rfl

/-- C9.  When no Users-table row matches the username, `get_user_history`
returns the empty history instead of failing: a user who never listened to
anything is not an error condition (the function is total past the scan; only
the data-store access can raise, and that is re-raised unchanged). -/
theorem c9_missing_user_empty_history (users : List User) (username : String)
    (h : users.filter (fun u => u.username = username) = []) :
    get_user_history users username = [] := by
  rw [get_user_history, h]

/-- C9, witness: a one-user table and a username that matches nobody. -/
theorem c9_missing_user_witness :
    ([⟨"alice", none⟩] : List User).filter (fun u => u.username = "bob") = []
    ∧ get_user_history [⟨"alice", none⟩] "bob" = [] :=
  ⟨by simp, c9_missing_user_empty_history [⟨"alice", none⟩] "bob" (by simp)⟩

/-- C10.  Scoring is deterministic: two runs on equal subscriptions, ratings,
history, catalog and content index, at the same scoring time, produce the
same per-album scores and the same output. -/
theorem c10_scoring_deterministic (subs subs2 : List Subscription)
    (ratings ratings2 : List Rating) (history history2 : List HistoryEntry)
    (albums albums2 : List Album) (content content2 : List ContentItem)
    (now now2 : Int) (hs : subs = subs2) (hr : ratings = ratings2)
    (hh : history = history2) (ha : albums = albums2) (hc : content = content2)
    (hn : now = now2) :
    (∀ album, album_score subs ratings history albums content now album
        = album_score subs2 ratings2 history2 albums2 content2 now2 album)
    ∧ get_feed_albums subs ratings history albums content now
        = get_feed_albums subs2 ratings2 history2 albums2 content2 now2 := by
  subst hs hr hh ha hc hn
  exact ⟨fun _ => rfl, rfl⟩

/-- C10, witness at concrete equal inputs. -/
theorem c10_scoring_deterministic_witness :
    get_feed_albums [] [] [] [⟨"AL2", "A2", "jazz"⟩] [] 7
      = get_feed_albums [] [] [] [⟨"AL2", "A2", "jazz"⟩] [] 7 :=
  (c10_scoring_deterministic [] [] [] [] [] [] [⟨"AL2", "A2", "jazz"⟩]
    [⟨"AL2", "A2", "jazz"⟩] [] [] 7 7 rfl rfl rfl rfl rfl rfl).2

end MusicApp
